import Mathlib

/-!
Shallow embedding of the blogicum blog application (src/blogicum/blog):
models.py, forms.py and views.py. Time is modelled as `Nat`, the request
clock `now` is an explicit parameter, and the relational store is a list of
rows per table. Foreign keys that the views dereference through
`select_related` (post.author, post.category) are denormalised into the row,
as the ORM does; equality of model instances is primary-key equality, as in
Django. Fallible request handlers return an explicit outcome value; a Python
exception (such as `AttributeError` on a null foreign key) is an `Error`
outcome.
-/

namespace Blogicum

/-- A row of the user table (the identity collaborator). -/
structure User where
  id : Nat
  username : String
  deriving DecidableEq, Repr

/-- models.py `Category`: title, description, slug, is_published, created_at. -/
structure Category where
  id : Nat
  title : String
  description : String
  slug : String
  is_published : Bool
  created_at : Nat
  deriving DecidableEq, Repr

/-- models.py `Post`. `author` is denormalised (select_related), `location`
is kept as a nullable id, `category` is a nullable denormalised row. -/
structure Post where
  id : Nat
  title : String
  text : String
  pub_date : Nat
  author : User
  location : Option Nat
  category : Option Category
  image : String
  is_published : Bool
  created_at : Nat
  deriving DecidableEq, Repr

/-- models.py `Comment`: text, post (FK, stored as post_id), author,
created_at. -/
structure Comment where
  id : Nat
  text : String
  post_id : Nat
  author : User
  created_at : Nat
  deriving DecidableEq, Repr

/-- The relational store the views query. -/
structure Store where
  users : List User
  categories : List Category
  posts : List Post
  comments : List Comment
  deriving DecidableEq, Repr

/-- Outcome of a request handler. `Error` stands for an uncaught Python
exception; `Forbidden` stands for an explicit 403 (never produced by this
code, present so that its absence can be stated). -/
inductive Outcome where
  | Found (p : Post)
  | NotFound
  | Forbidden
  | RedirectToPostDetail (pk : Nat)
  | RedirectToProfile (user : User)
  | RenderForm
  | RenderConfirm
  | Error (msg : String)
  deriving DecidableEq, Repr

/-- Django instance equality is primary-key equality (`post.author !=
request.user` compares pks). -/
def sameUser (a b : User) : Bool :=
  a.id == b.id

/-- `request.user` is `none` for an anonymous viewer; `post_object.author
!= request.user` is true whenever the viewer is anonymous. -/
def viewerIsAuthor (viewer : Option User) (p : Post) : Bool :=
  match viewer with
  | none => false
  | some v => sameUser v p.author

/-- `get_object_or_404(Post, pk=pk)`. -/
def getPostById (posts : List Post) (pk : Nat) : Option Post :=
  posts.find? (fun p => p.id == pk)

/-- views.py `PostDetailView.get_object` (lines 82-90): fetch the post or
404; a non-author viewer gets the post iff `post_object.category.is_published
and post_object.pub_date <= timezone.now() and post_object.is_published`,
else `Http404`. Python evaluates `post_object.category.is_published` first,
so a null category raises `AttributeError` on this path. -/
def postDetailGetObject (posts : List Post) (viewer : Option User) (now : Nat)
    (pk : Nat) : Outcome :=
  match getPostById posts pk with
  | none => .NotFound
  | some post_object =>
    if ¬ (viewerIsAuthor viewer post_object) then
      match post_object.category with
      | none => .Error "AttributeError"
      | some cat =>
        if cat.is_published ∧ post_object.pub_date ≤ now
            ∧ post_object.is_published then
          .Found post_object
        else
          .NotFound
    else
      .Found post_object

end Blogicum

namespace Blogicum

/-- C1 (amended to posts whose category is non-null on the non-author
branch): for an existing post, the detail operation returns the post to its
author regardless of flags; a non-author viewer of a post with a non-null
category gets the post iff the category is published, `pub_date ≤ now` and
the post is published, and otherwise Not-Found; no input produces a
Forbidden outcome. -/
theorem postDetail_visibility (posts : List Post) (viewer : Option User)
    (now pk : Nat) (post : Post)
    (hfind : getPostById posts pk = some post) :
    (viewerIsAuthor viewer post = true →
      postDetailGetObject posts viewer now pk = .Found post) ∧
    (viewerIsAuthor viewer post = false → ∀ cat, post.category = some cat →
      postDetailGetObject posts viewer now pk =
        (if cat.is_published ∧ post.pub_date ≤ now ∧ post.is_published then
          .Found post else .NotFound)) ∧
    (∀ posts' viewer' now' pk',
      postDetailGetObject posts' viewer' now' pk' ≠ .Forbidden) := by
  refine ⟨?_, ?_, ?_⟩
  · intro hauth
    simp [postDetailGetObject, hfind, hauth]
  · intro hauth cat hcat
    simp [postDetailGetObject, hfind, hauth, hcat]
  · intro posts' viewer' now' pk'
    unfold postDetailGetObject
    cases hf : getPostById posts' pk' with
    | none => simp
    | some q =>
      by_cases hv : viewerIsAuthor viewer' q
      · simp [hv]
      · cases hc : q.category
        · simp [hv, hc]
        · simp only [hv, hc, Bool.false_eq_true, not_false_eq_true, if_true]
          split <;> simp

/-- Fixture user for witness statements. -/
def userA : User :=
  { id := 7, username := "a" }

/-- Fixture user distinct from `userA`. -/
def userB : User :=
  { id := 8, username := "b" }

/-- Fixture published category. -/
def catPub : Category :=
  { id := 3, title := "c", description := "d", slug := "s",
    is_published := true, created_at := 0 }

/-- Fixture post: published, in a published category, `pub_date = 5`,
authored by `userA`. -/
def post1 : Post :=
  { id := 1, title := "t", text := "x", pub_date := 5, author := userA,
    location := none, category := some catPub, image := "",
    is_published := true, created_at := 0 }

/-- Witness for C1 at a concrete store: the author viewing their own post. -/
theorem postDetail_visibility_witness :
    postDetailGetObject [post1] (some userA) 10 1 = .Found post1 :=
  (postDetail_visibility [post1] (some userA) 10 1 post1 rfl).1 (by decide)

/-- Fixture post with a null category: published, `pub_date = 0`, authored by
`userA`. -/
def post2NullCat : Post :=
  { id := 2, title := "t2", text := "y", pub_date := 0, author := userA,
    location := none, category := none, image := "",
    is_published := true, created_at := 0 }

/-- C1 counterexample: an existing published, past-dated post with a null
category, viewed by an authenticated non-author, yields neither the post nor
Not-Found (the code raises `AttributeError` dereferencing the null
category), so the claimed dichotomy over every existing post fails. -/
theorem postDetail_visibility_counterexample :
    postDetailGetObject [post2NullCat] (some userB) 50 2 =
      .Error "AttributeError" ∧
    postDetailGetObject [post2NullCat] (some userB) 50 2 ≠
      .Found post2NullCat ∧
    postDetailGetObject [post2NullCat] (some userB) 50 2 ≠ .NotFound := by
  refine ⟨rfl, ?_, ?_⟩ <;> decide

/-- C2 counterexample: an anonymous viewer requesting the detail of a
published, past-dated post whose category is null gets an `AttributeError`
(the code dereferences `post_object.category.is_published` on `None`), not
the post — refuting the claim that the check does not raise and that a null
category counts as satisfying visibility. -/
theorem postDetail_nullCategory_counterexample :
    postDetailGetObject [post2NullCat] none 100 2 = .Error "AttributeError" ∧
    postDetailGetObject [post2NullCat] none 100 2 ≠ .Found post2NullCat := by
  constructor
  · rfl
  · decide

/-- C2 amended: for a post with a null category, the non-author branch of
the detail operation raises `AttributeError` (an error outcome) — it neither
returns the post nor signals Not-Found, regardless of `pub_date` and
`is_published`. -/
theorem postDetail_nullCategory (posts : List Post) (viewer : Option User)
    (now pk : Nat) (post : Post)
    (hfind : getPostById posts pk = some post)
    (hcat : post.category = none)
    (hauth : viewerIsAuthor viewer post = false) :
    postDetailGetObject posts viewer now pk = .Error "AttributeError" := by
  simp [postDetailGetObject, hfind, hauth, hcat]

/-- Witness for the amended C2 at a concrete store. -/
theorem postDetail_nullCategory_witness :
    postDetailGetObject [post2NullCat] none 100 2 = .Error "AttributeError" :=
  postDetail_nullCategory [post2NullCat] none 100 2 post2NullCat rfl rfl
    (by decide)

/-- `.annotate(comment_count=Count('comments'))`: the number of comments
whose post FK points at this post. -/
def commentCount (comments : List Comment) (p : Post) : Nat :=
  (comments.filter (fun c => c.post_id == p.id)).length

/-- `.order_by('-pub_date')` on an annotated queryset: descending pub_date. -/
def byPubDateDesc (a b : Post × Nat) : Prop :=
  b.1.pub_date ≤ a.1.pub_date

instance : DecidableRel byPubDateDesc :=
  fun _ _ => Nat.decLe _ _

instance : IsTotal (Post × Nat) byPubDateDesc :=
  ⟨fun a b => Nat.le_total b.1.pub_date a.1.pub_date⟩

instance : IsTrans (Post × Nat) byPubDateDesc :=
  ⟨fun _ _ _ h1 h2 => Nat.le_trans h2 h1⟩

/-- Annotate each post with its comment count and order by `-pub_date`
(a stable sort; the ORM leaves tie order unspecified). -/
def annotateAndSortDesc (comments : List Comment) (l : List Post) :
    List (Post × Nat) :=
  List.insertionSort byPubDateDesc
    (l.map (fun p => (p, commentCount comments p)))

theorem mem_annotateAndSortDesc (comments : List Comment) (l : List Post)
    (pr : Post × Nat) :
    pr ∈ annotateAndSortDesc comments l ↔
      pr.1 ∈ l ∧ pr.2 = commentCount comments pr.1 := by
  unfold annotateAndSortDesc
  rw [List.mem_insertionSort, List.mem_map]
  constructor
  · rintro ⟨p, hp, rfl⟩
    exact ⟨hp, rfl⟩
  · rintro ⟨h1, h2⟩
    refine ⟨pr.1, h1, ?_⟩
    cases pr with
    | mk a n =>
      simp only at h2
      rw [h2]

theorem sorted_annotateAndSortDesc (comments : List Comment) (l : List Post) :
    List.Sorted byPubDateDesc (annotateAndSortDesc comments l) :=
  List.sorted_insertionSort byPubDateDesc _

/-- The inner join of the filter `category__is_published=True`: a post with
a null category is excluded. -/
def categoryIsPublishedJoin (p : Post) : Bool :=
  match p.category with
  | some c => c.is_published
  | none => false

theorem categoryIsPublishedJoin_iff (p : Post) :
    categoryIsPublishedJoin p = true ↔
      ∃ c, p.category = some c ∧ c.is_published = true := by
  unfold categoryIsPublishedJoin
  cases h : p.category <;> simp [h]

/-- views.py `PostListView.get_queryset` filter (lines 30-33):
`is_published=True, category__is_published=True, pub_date__lte=now`. -/
def isPubliclyListed (now : Nat) (p : Post) : Bool :=
  p.is_published && categoryIsPublishedJoin p && decide (p.pub_date ≤ now)

/-- views.py `PostListView.get_queryset` (lines 24-35): filter, annotate
with comment count, order by `-pub_date`. -/
def PostListView_get_queryset (store : Store) (now : Nat) :
    List (Post × Nat) :=
  annotateAndSortDesc store.comments
    (store.posts.filter (isPubliclyListed now))

/-- views.py line 16. -/
def POSTS_ON_PAGE : Nat := 10

/-- `paginate_by = POSTS_ON_PAGE` on `PostListView` (line 22). -/
def PostListView_paginate_by : Nat := POSTS_ON_PAGE

/-- C3: the global feed contains exactly the posts that are published, in a
published category and not future-dated — hence only posts visible to an
anonymous viewer — each annotated with its comment count, ordered by
pub_date descending, with page size 10. -/
theorem globalFeed_spec (store : Store) (now : Nat) :
    (∀ pr : Post × Nat,
      pr ∈ PostListView_get_queryset store now ↔
        pr.1 ∈ store.posts ∧ pr.1.is_published = true ∧
        (∃ c, pr.1.category = some c ∧ c.is_published = true) ∧
        pr.1.pub_date ≤ now ∧
        pr.2 = commentCount store.comments pr.1) ∧
    List.Sorted byPubDateDesc (PostListView_get_queryset store now) ∧
    PostListView_paginate_by = 10 := by
  refine ⟨?_, sorted_annotateAndSortDesc _ _, rfl⟩
  intro pr
  rw [PostListView_get_queryset, mem_annotateAndSortDesc, List.mem_filter]
  rw [show (isPubliclyListed now pr.1 = true) ↔
      (pr.1.is_published = true ∧
        (∃ c, pr.1.category = some c ∧ c.is_published = true) ∧
        pr.1.pub_date ≤ now) by
    unfold isPubliclyListed
    rw [Bool.and_assoc]
    simp [categoryIsPublishedJoin_iff]]
  tauto

/-- `.order_by('created_at')` / `Comment.Meta.ordering`: ascending
created_at. -/
def byCreatedAtAsc (a b : Comment) : Prop :=
  a.created_at ≤ b.created_at

instance : DecidableRel byCreatedAtAsc :=
  fun _ _ => Nat.decLe _ _

instance : IsTotal Comment byCreatedAtAsc :=
  ⟨fun a b => Nat.le_total a.created_at b.created_at⟩

instance : IsTrans Comment byCreatedAtAsc :=
  ⟨fun _ _ _ h1 h2 => Nat.le_trans h1 h2⟩

/-- views.py `PostDetailView.get_context_data` (lines 95-98):
`Comment.objects.filter(post_id=pk).order_by('created_at')`. -/
def PostDetailView_comments (comments : List Comment) (pk : Nat) :
    List Comment :=
  List.insertionSort byCreatedAtAsc
    (comments.filter (fun c => c.post_id == pk))

/-- C9: the comment list rendered with a post's detail view holds exactly
the comments whose post is that post, ordered by created_at ascending. -/
theorem postDetail_comments_spec (comments : List Comment) (pk : Nat) :
    (∀ c, c ∈ PostDetailView_comments comments pk ↔
      c ∈ comments ∧ c.post_id = pk) ∧
    List.Sorted byCreatedAtAsc (PostDetailView_comments comments pk) := by
  constructor
  · intro c
    rw [PostDetailView_comments, List.mem_insertionSort, List.mem_filter]
    simp
  · exact List.sorted_insertionSort byCreatedAtAsc _

/-- views.py `ProfileListView.get_queryset` (lines 132-138):
`Post.objects.filter(author__username=username)` annotated with comment
count, ordered by `-pub_date`. No visibility filter. -/
def ProfileListView_get_queryset (store : Store) (username : String) :
    List (Post × Nat) :=
  annotateAndSortDesc store.comments
    (store.posts.filter (fun p => p.author.username == username))

/-- views.py `ProfileListView` response: `get_context_data` (lines 140-145)
does `get_object_or_404(User, username=username)`, so the request 404s when
no user has the username; otherwise the queryset is rendered. -/
def ProfileListView_page (store : Store) (username : String) :
    Except Unit (List (Post × Nat)) :=
  match store.users.find? (fun u => u.username == username) with
  | none => .error ()
  | some _ => .ok (ProfileListView_get_queryset store username)

/-- C5: the profile feed for an existing username contains exactly the posts
authored by that user — with no visibility filtering — annotated with
comment count and ordered by pub_date descending; an unknown username
signals Not-Found. -/
theorem profileFeed_spec (store : Store) (username : String) :
    (ProfileListView_page store username = .error () ↔
      ∀ u ∈ store.users, u.username ≠ username) ∧
    (∀ feed, ProfileListView_page store username = .ok feed →
      (∀ pr : Post × Nat, pr ∈ feed ↔
        pr.1 ∈ store.posts ∧ pr.1.author.username = username ∧
        pr.2 = commentCount store.comments pr.1) ∧
      List.Sorted byPubDateDesc feed) := by
  constructor
  · rw [ProfileListView_page]
    cases hf : store.users.find? (fun u => u.username == username) with
    | none =>
      simp only [true_iff]
      rw [List.find?_eq_none] at hf
      intro u hu
      simpa using hf u hu
    | some u =>
      simp only [reduceCtorEq, false_iff, not_forall]
      have hmem := List.mem_of_find?_eq_some hf
      have hp := List.find?_some hf
      simp only [beq_iff_eq] at hp
      exact ⟨u, hmem, by simp [hp]⟩
  · intro feed hfeed
    have hok : feed = ProfileListView_get_queryset store username := by
      rw [ProfileListView_page] at hfeed
      cases hf : store.users.find? (fun u => u.username == username) <;>
        rw [hf] at hfeed <;> simp_all
    subst hok
    constructor
    · intro pr
      rw [ProfileListView_get_queryset, mem_annotateAndSortDesc,
        List.mem_filter]
      simp [and_assoc]
    · exact sorted_annotateAndSortDesc _ _

/-- Witness for C5: a store with one user and two posts, one by each of two
authors; the feed for the user's name holds exactly their post. -/
theorem profileFeed_spec_witness :
    (post1, 0) ∈ ProfileListView_get_queryset
      { users := [userA], categories := [catPub],
        posts := [post1, post2NullCat], comments := [] } "a" := by
  have h := (profileFeed_spec
    { users := [userA], categories := [catPub],
      posts := [post1, post2NullCat], comments := [] } "a").2
    (ProfileListView_get_queryset
      { users := [userA], categories := [catPub],
        posts := [post1, post2NullCat], comments := [] } "a") rfl
  exact (h.1 (post1, 0)).mpr (by decide)

/-- The filter `category=category` on the post table: FK equality is
primary-key equality; a null category matches no category. -/
def inCategory (cat : Category) (p : Post) : Bool :=
  match p.category with
  | some c => c.id == cat.id
  | none => false

/-- views.py `CategoryPostListView.get_queryset` (lines 107-117):
`get_object_or_404(Category, slug=slug, is_published=True)`, then
`Post.objects.filter(is_published=True, category=category,
pub_date__lte=now)` annotated with comment count, ordered by `-pub_date`. -/
def CategoryPostListView_get_queryset (store : Store) (slug : String)
    (now : Nat) : Except Unit (List (Post × Nat)) :=
  match store.categories.find?
      (fun c => c.slug == slug && c.is_published) with
  | none => .error ()
  | some category =>
    .ok (annotateAndSortDesc store.comments
      (store.posts.filter (fun p =>
        p.is_published && inCategory category p && decide (p.pub_date ≤ now))))

/-- C6: under slug uniqueness, the category feed signals Not-Found exactly
when no category carries the slug or the one carrying it is unpublished;
for a published category it contains exactly that category's published,
non-future posts, annotated with comment count and ordered by pub_date
descending. -/
theorem categoryFeed_spec (store : Store) (slug : String) (now : Nat)
    (hnodup : (store.categories.map Category.slug).Nodup) :
    (CategoryPostListView_get_queryset store slug now = .error () ↔
      ((∀ c ∈ store.categories, c.slug ≠ slug) ∨
       (∃ c ∈ store.categories, c.slug = slug ∧ c.is_published = false))) ∧
    (∀ cat ∈ store.categories, cat.slug = slug → cat.is_published = true →
      ∃ feed, CategoryPostListView_get_queryset store slug now = .ok feed ∧
        (∀ pr : Post × Nat, pr ∈ feed ↔
          pr.1 ∈ store.posts ∧ pr.1.is_published = true ∧
          (∃ c, pr.1.category = some c ∧ c.id = cat.id) ∧
          pr.1.pub_date ≤ now ∧
          pr.2 = commentCount store.comments pr.1) ∧
        List.Sorted byPubDateDesc feed) := by
  have huniq : ∀ x ∈ store.categories, ∀ y ∈ store.categories,
      x.slug = y.slug → x = y := by
    intro x hx y hy hxy
    exact List.inj_on_of_nodup_map hnodup hx hy hxy
  constructor
  · rw [CategoryPostListView_get_queryset]
    cases hf : store.categories.find?
        (fun c => c.slug == slug && c.is_published) with
    | none =>
      simp only [true_iff]
      rw [List.find?_eq_none] at hf
      by_cases hex : ∃ c ∈ store.categories, c.slug = slug
      · obtain ⟨c0, hc0, hslug⟩ := hex
        refine Or.inr ⟨c0, hc0, hslug, ?_⟩
        have := hf c0 hc0
        simp only [Bool.and_eq_true, beq_iff_eq, not_and] at this
        cases h : c0.is_published with
        | false => rfl
        | true => exact absurd h (this hslug)
      · exact Or.inl (fun c hc hs => hex ⟨c, hc, hs⟩)
    | some c =>
      simp only [reduceCtorEq, false_iff]
      have hmem := List.mem_of_find?_eq_some hf
      have hp := List.find?_some hf
      simp only [Bool.and_eq_true, beq_iff_eq] at hp
      rintro (hall | ⟨c', hc', hslug', hunpub⟩)
      · exact hall c hmem hp.1
      · have : c' = c := huniq c' hc' c hmem (hslug'.trans hp.1.symm)
        rw [this] at hunpub
        rw [hp.2] at hunpub
        exact Bool.true_eq_false ▸ hunpub
  · intro cat hcat hslug hpub
    have hf : store.categories.find?
        (fun c => c.slug == slug && c.is_published) = some cat := by
      cases hf : store.categories.find?
          (fun c => c.slug == slug && c.is_published) with
      | none =>
        rw [List.find?_eq_none] at hf
        exact absurd (by simp [hslug, hpub]) (hf cat hcat)
      | some c =>
        have hmem := List.mem_of_find?_eq_some hf
        have hp := List.find?_some hf
        simp only [Bool.and_eq_true, beq_iff_eq] at hp
        rw [huniq c hmem cat hcat (hp.1.trans hslug.symm)]
    refine ⟨_, by rw [CategoryPostListView_get_queryset, hf], ?_, ?_⟩
    · intro pr
      rw [mem_annotateAndSortDesc, List.mem_filter]
      rw [show (pr.1.is_published && inCategory cat pr.1 &&
          decide (pr.1.pub_date ≤ now)) = true ↔
          (pr.1.is_published = true ∧
            (∃ c, pr.1.category = some c ∧ c.id = cat.id) ∧
            pr.1.pub_date ≤ now) by
        rw [Bool.and_assoc]
        simp only [Bool.and_eq_true, decide_eq_true_eq, and_congr_right_iff]
        intro _
        unfold inCategory
        cases h : pr.1.category <;> simp [h]]
      tauto
    · exact sorted_annotateAndSortDesc _ _

/-- Witness for C6: a store with one published category and one post in it;
the feed for the category's slug holds exactly that post. -/
theorem categoryFeed_spec_witness :
    ∃ feed, CategoryPostListView_get_queryset
      { users := [userA], categories := [catPub],
        posts := [post1, post2NullCat], comments := [] } "s" 10 = .ok feed ∧
      (post1, 0) ∈ feed := by
  obtain ⟨feed, hok, hmem, -⟩ := (categoryFeed_spec
    { users := [userA], categories := [catPub],
      posts := [post1, post2NullCat], comments := [] } "s" 10
    (by decide)).2 catPub (by decide) rfl rfl
  exact ⟨feed, hok, (hmem (post1, 0)).mpr (by decide)⟩

/-- forms.py `PostForm`: a ModelForm over `Post` with
`exclude = ('author',)` — every editable field except the author
(`created_at` is auto_now_add and the pk is assigned by the store). -/
structure PostFormData where
  title : String
  text : String
  pub_date : Nat
  location : Option Nat
  category : Option Category
  image : String
  is_published : Bool
  deriving DecidableEq, Repr

/-- forms.py `CommentForm`: `fields = ('text',)`. -/
structure CommentFormData where
  text : String
  deriving DecidableEq, Repr

/-- Saving a valid `PostForm` after `form.instance.author =
self.request.user` (`PostCreateView.form_valid`, lines 53-55): the new row
takes every field from the form and the author from the requester. -/
def createdPost (f : PostFormData) (viewer : User) (new_id now : Nat) :
    Post :=
  { id := new_id, title := f.title, text := f.text, pub_date := f.pub_date,
    author := viewer, location := f.location, category := f.category,
    image := f.image, is_published := f.is_published, created_at := now }

/-- views.py `PostCreateView` (lines 52-58): a valid form saves the new post
and redirects to the requester's profile; an invalid form re-renders.
Whether the form validates is decided by the external form collaborator and
is passed in as `form_valid`. -/
def PostCreateView_submit (store : Store) (viewer : User) (f : PostFormData)
    (form_valid : Bool) (new_id now : Nat) : Outcome × Store :=
  if form_valid then
    (.RedirectToProfile viewer,
     { store with posts := store.posts ++ [createdPost f viewer new_id now] })
  else
    (.RenderForm, store)

/-- Saving a valid `CommentForm` after `form.instance.author` and
`form.instance.post` are set (`CommentCreateView.form_valid`, lines
169-172, and `add_comment`, lines 184-187). -/
def createdComment (f : CommentFormData) (viewer : User) (post_object : Post)
    (new_id now : Nat) : Comment :=
  { id := new_id, text := f.text, post_id := post_object.id,
    author := viewer, created_at := now }

/-- views.py `CommentCreateView` (lines 159-176): dispatch 404s when the
post is absent; a valid form saves the comment (author := requester,
post := the fetched post) and redirects to the post detail; an invalid form
re-renders the bound form with its field errors (`CreateView.form_invalid`).
-/
def CommentCreateView_submit (store : Store) (viewer : User) (post_id : Nat)
    (f : CommentFormData) (form_valid : Bool) (new_id now : Nat) :
    Outcome × Store :=
  match getPostById store.posts post_id with
  | none => (.NotFound, store)
  | some post_object =>
    if form_valid then
      (.RedirectToPostDetail post_id,
       { store with comments :=
          store.comments ++ [createdComment f viewer post_object new_id now] })
    else
      (.RenderForm, store)

/-- views.py `add_comment` (lines 179-188): save when valid, and redirect to
the post detail in every case — an invalid form's errors are never
re-rendered by this handler. -/
def add_comment (store : Store) (viewer : User) (post_id : Nat)
    (f : CommentFormData) (form_valid : Bool) (new_id now : Nat) :
    Outcome × Store :=
  match getPostById store.posts post_id with
  | none => (.NotFound, store)
  | some post =>
    if form_valid then
      (.RedirectToPostDetail post_id,
       { store with comments :=
          store.comments ++ [createdComment f viewer post new_id now] })
    else
      (.RedirectToPostDetail post_id, store)

/-- Modelled from the spec: the URL configuration (urls.py) is not among the
source files, so which of the two comment-creation handlers defined in
views.py serves the create-comment endpoint cannot be read off the source.
The spec's error taxonomy resolves a validation failure by re-rendering the
input form with field-level messages, which is the behavior of
`CommentCreateView_submit` (an invalid form in `add_comment` instead
redirects silently); the routed create-comment operation is therefore taken
to be `CommentCreateView_submit`. -/
def routedCreateComment : Store → User → Nat → CommentFormData → Bool →
    Nat → Nat → Outcome × Store :=
  CommentCreateView_submit

/-- Binding a valid `PostForm` to an existing instance and saving: every
form field overwrites the row; pk, author and created_at are untouched. -/
def applyPostForm (f : PostFormData) (p : Post) : Post :=
  { p with
      title := f.title, text := f.text, pub_date := f.pub_date,
      location := f.location, category := f.category, image := f.image,
      is_published := f.is_published }

/-- views.py `DispatchPostMixin.dispatch` (lines 44-49) composed with
`PostUpdateView` (lines 61-64): 404 when the post is absent; a non-author
is redirected to the post's detail view; otherwise a valid form updates the
row and redirects to the detail view, an invalid form re-renders. -/
def PostUpdateView_submit (store : Store) (viewer : User) (pk : Nat)
    (f : PostFormData) (form_valid : Bool) : Outcome × Store :=
  match getPostById store.posts pk with
  | none => (.NotFound, store)
  | some instanceP =>
    if ¬ (sameUser instanceP.author viewer) then
      (.RedirectToPostDetail pk, store)
    else if form_valid then
      (.RedirectToPostDetail pk,
       { store with
           posts := store.posts.map
             (fun p => if p.id == pk then applyPostForm f p else p) })
    else
      (.RenderForm, store)

/-- views.py `DispatchPostMixin.dispatch` composed with `PostDeleteView`
(lines 67-75): 404 when absent; a non-author is redirected to the post's
detail view; a POST deletes the row (comments cascade, `on_delete=CASCADE`)
and redirects to the requester's profile; a GET renders the confirmation. -/
def PostDeleteView_submit (store : Store) (viewer : User) (pk : Nat)
    (method_is_post : Bool) : Outcome × Store :=
  match getPostById store.posts pk with
  | none => (.NotFound, store)
  | some instanceP =>
    if ¬ (sameUser instanceP.author viewer) then
      (.RedirectToPostDetail pk, store)
    else if method_is_post then
      (.RedirectToProfile viewer,
       { store with
          posts := store.posts.filter (fun p => !(p.id == pk)),
          comments := store.comments.filter (fun c => !(c.post_id == pk)) })
    else
      (.RenderConfirm, store)

/-- `get_object_or_404(Comment, id=comment_id, post_id=post_id)`. -/
def getCommentByIdAndPost (comments : List Comment)
    (comment_id post_id : Nat) : Option Comment :=
  comments.find? (fun c => c.id == comment_id && c.post_id == post_id)

/-- views.py `edit_comment` (lines 191-205): 404 when no comment matches
both ids; a non-author is redirected to the post's detail view; a valid
form saves the new text and redirects there; an invalid (or unbound) form
renders the page. -/
def edit_comment (store : Store) (viewer : User) (post_id comment_id : Nat)
    (f : CommentFormData) (form_valid : Bool) : Outcome × Store :=
  match getCommentByIdAndPost store.comments comment_id post_id with
  | none => (.NotFound, store)
  | some instanceC =>
    if ¬ (sameUser viewer instanceC.author) then
      (.RedirectToPostDetail post_id, store)
    else if form_valid then
      (.RedirectToPostDetail post_id,
       { store with
           comments := store.comments.map
             (fun c => if c.id == comment_id then { c with text := f.text }
                       else c) })
    else
      (.RenderForm, store)

/-- views.py `delete_comment` (lines 208-219): 404 when no comment matches
both ids; a non-author is redirected to the post's detail view; a POST
deletes the row and redirects there; a GET renders the confirmation. -/
def delete_comment (store : Store) (viewer : User) (post_id comment_id : Nat)
    (method_is_post : Bool) : Outcome × Store :=
  match getCommentByIdAndPost store.comments comment_id post_id with
  | none => (.NotFound, store)
  | some instanceC =>
    if ¬ (sameUser viewer instanceC.author) then
      (.RedirectToPostDetail post_id, store)
    else if method_is_post then
      (.RedirectToPostDetail post_id,
       { store with comments :=
          store.comments.filter (fun c => !(c.id == comment_id)) })
    else
      (.RenderConfirm, store)

/-- Fixture comment on `post1` by `userA`. -/
def comment1 : Comment :=
  { id := 1, text := "hi", post_id := 1, author := userA, created_at := 0 }

/-- Fixture store with two users, one category, two posts and one comment. -/
def store0 : Store :=
  { users := [userA, userB], categories := [catPub],
    posts := [post1, post2NullCat], comments := [comment1] }

/-- Fixture post form data. -/
def postForm0 : PostFormData :=
  { title := "t", text := "x", pub_date := 5, location := none,
    category := some catPub, image := "", is_published := true }

/-- Fixture comment form data. -/
def commentForm0 : CommentFormData :=
  { text := "hi" }

/-- C4: an authenticated viewer who is not the author of an existing post or
comment is, on edit or delete, redirected to the entity's detail view (a
comment's detail view is its post's detail page) with the store returned
unchanged — in particular no Forbidden outcome and no mutation. -/
theorem nonAuthor_redirects (store : Store) (viewer : User)
    (pk post_id comment_id : Nat) (f : PostFormData) (g : CommentFormData)
    (fv mp mc : Bool) :
    (∀ post, getPostById store.posts pk = some post →
      sameUser post.author viewer = false →
      PostUpdateView_submit store viewer pk f fv =
        (.RedirectToPostDetail pk, store) ∧
      PostDeleteView_submit store viewer pk mp =
        (.RedirectToPostDetail pk, store)) ∧
    (∀ c, getCommentByIdAndPost store.comments comment_id post_id = some c →
      sameUser viewer c.author = false →
      edit_comment store viewer post_id comment_id g fv =
        (.RedirectToPostDetail post_id, store) ∧
      delete_comment store viewer post_id comment_id mc =
        (.RedirectToPostDetail post_id, store)) := by
  constructor
  · intro post hfind hauth
    constructor
    · simp [PostUpdateView_submit, hfind, hauth]
    · simp [PostDeleteView_submit, hfind, hauth]
  · intro c hfind hauth
    constructor
    · simp [edit_comment, hfind, hauth]
    · simp [delete_comment, hfind, hauth]

/-- Witness for C4: `userB` (not the author) tries to edit `post1` and
`comment1`; both requests redirect to the detail page and leave the store
as it was. -/
theorem nonAuthor_redirects_witness :
    PostUpdateView_submit store0 userB 1 postForm0 true =
      (.RedirectToPostDetail 1, store0) ∧
    edit_comment store0 userB 1 1 commentForm0 true =
      (.RedirectToPostDetail 1, store0) :=
  ⟨((nonAuthor_redirects store0 userB 1 1 1 postForm0 commentForm0
      true true true).1 post1 rfl (by decide)).1,
   ((nonAuthor_redirects store0 userB 1 1 1 postForm0 commentForm0
      true true true).2 comment1 rfl (by decide)).1⟩

theorem getCommentByIdAndPost_eq_none_iff (comments : List Comment)
    (comment_id post_id : Nat)
    (hnodup : (comments.map Comment.id).Nodup) :
    getCommentByIdAndPost comments comment_id post_id = none ↔
      ((∀ c ∈ comments, c.id ≠ comment_id) ∨
       (∃ c ∈ comments, c.id = comment_id ∧ c.post_id ≠ post_id)) := by
  have huniq : ∀ x ∈ comments, ∀ y ∈ comments, x.id = y.id → x = y :=
    fun x hx y hy hxy => List.inj_on_of_nodup_map hnodup hx hy hxy
  rw [getCommentByIdAndPost, List.find?_eq_none]
  constructor
  · intro hall
    by_cases hex : ∃ c ∈ comments, c.id = comment_id
    · obtain ⟨c0, hc0, hid⟩ := hex
      refine Or.inr ⟨c0, hc0, hid, ?_⟩
      have := hall c0 hc0
      simp only [Bool.and_eq_true, beq_iff_eq, not_and] at this
      exact this hid
    · exact Or.inl (fun c hc hid => hex ⟨c, hc, hid⟩)
  · rintro (hnone | ⟨c0, hc0, hid0, hpost0⟩) <;> intro c hc
    · simp only [Bool.and_eq_true, beq_iff_eq, not_and]
      exact fun hid _ => hnone c hc hid
    · simp only [Bool.and_eq_true, beq_iff_eq, not_and]
      intro hid
      rw [huniq c hc c0 hc0 (hid.trans hid0.symm)]
      exact hpost0

/-- C7: under pk uniqueness of comment ids, comment edit and delete signal
Not-Found exactly when no comment carries the id or the comment carrying it
belongs to a different post; a comment existing under the named post never
yields Not-Found. -/
theorem commentLookup_notFound (store : Store) (viewer : User)
    (post_id comment_id : Nat) (f : CommentFormData) (fv mp : Bool)
    (hnodup : (store.comments.map Comment.id).Nodup) :
    ((edit_comment store viewer post_id comment_id f fv).1 = .NotFound ↔
      ((∀ c ∈ store.comments, c.id ≠ comment_id) ∨
       (∃ c ∈ store.comments, c.id = comment_id ∧ c.post_id ≠ post_id))) ∧
    ((delete_comment store viewer post_id comment_id mp).1 = .NotFound ↔
      ((∀ c ∈ store.comments, c.id ≠ comment_id) ∨
       (∃ c ∈ store.comments, c.id = comment_id ∧ c.post_id ≠ post_id))) := by
  rw [← getCommentByIdAndPost_eq_none_iff store.comments comment_id post_id
    hnodup]
  constructor
  · rw [edit_comment]
    cases hf : getCommentByIdAndPost store.comments comment_id post_id with
    | none => simp
    | some c =>
      simp only [reduceCtorEq, iff_false]
      by_cases hauth : sameUser viewer c.author
      · simp only [hauth, not_true_eq_false, if_false]
        cases fv <;> simp
      · simp [hauth]
  · rw [delete_comment]
    cases hf : getCommentByIdAndPost store.comments comment_id post_id with
    | none => simp
    | some c =>
      simp only [reduceCtorEq, iff_false]
      by_cases hauth : sameUser viewer c.author
      · simp only [hauth, not_true_eq_false, if_false]
        cases mp <;> simp
      · simp [hauth]

/-- Witness for C7: in `store0`, editing comment 1 under post 2 (a
post/comment mismatch) signals Not-Found, and editing it under post 1 (its
real post) does not. -/
theorem commentLookup_notFound_witness :
    (edit_comment store0 userA 2 1 commentForm0 true).1 = .NotFound ∧
    (edit_comment store0 userA 1 1 commentForm0 true).1 ≠ .NotFound :=
  ⟨(commentLookup_notFound store0 userA 2 1 commentForm0 true true
      (by decide)).1.mpr
    (Or.inr ⟨comment1, by decide, rfl, by decide⟩),
   fun h => by
    have := (commentLookup_notFound store0 userA 1 1 commentForm0 true true
      (by decide)).1.mp h
    revert this
    decide⟩

/-- C8: for a submission on an existing post whose comment form fails
validation, the routed create-comment operation re-renders the input form
(with the external collaborator's field errors) and returns the store
unchanged — no comment is created. The routing is modelled from the spec in
`routedCreateComment`, urls.py being absent from the sources. -/
theorem createComment_invalid_rerenders (store : Store) (viewer : User)
    (post_id : Nat) (f : CommentFormData) (new_id now : Nat) (post : Post)
    (hpost : getPostById store.posts post_id = some post) :
    routedCreateComment store viewer post_id f false new_id now =
      (.RenderForm, store) := by
  simp [routedCreateComment, CommentCreateView_submit, hpost]

/-- Witness for C8 at `store0`. -/
theorem createComment_invalid_rerenders_witness :
    routedCreateComment store0 userA 1 commentForm0 false 9 3 =
      (.RenderForm, store0) :=
  createComment_invalid_rerenders store0 userA 1 commentForm0 9 3 post1 rfl

/-- C10: creation stores the requester as author. The post form carries no
author field and the comment form only a text field, so for every form
input the appended row's author is the authenticated requester — for
`PostCreateView`, `CommentCreateView` and `add_comment` alike. -/
theorem createdEntities_author (store : Store) (viewer : User)
    (f : PostFormData) (g : CommentFormData) (post_id new_id now : Nat)
    (post : Post)
    (hpost : getPostById store.posts post_id = some post) :
    ((PostCreateView_submit store viewer f true new_id now).2.posts =
      store.posts ++ [createdPost f viewer new_id now] ∧
     (createdPost f viewer new_id now).author = viewer) ∧
    (Store.comments
        (CommentCreateView_submit store viewer post_id g true new_id now).2 =
      store.comments ++ [createdComment g viewer post new_id now] ∧
     (createdComment g viewer post new_id now).author = viewer) ∧
    ((add_comment store viewer post_id g true new_id now).2.comments =
      store.comments ++ [createdComment g viewer post new_id now] ∧
     (createdComment g viewer post new_id now).author = viewer) := by
  refine ⟨⟨rfl, rfl⟩, ⟨?_, rfl⟩, ⟨?_, rfl⟩⟩
  · simp [CommentCreateView_submit, hpost]
  · simp [add_comment, hpost]

/-- Witness for C10 at `store0`. -/
theorem createdEntities_author_witness :
    (createdPost postForm0 userB 9 3).author = userB ∧
    (add_comment store0 userB 1 commentForm0 true 9 3).2.comments =
      store0.comments ++ [createdComment commentForm0 userB post1 9 3] :=
  ⟨(createdEntities_author store0 userB postForm0 commentForm0 1 9 3 post1
      rfl).1.2,
   (createdEntities_author store0 userB postForm0 commentForm0 1 9 3 post1
      rfl).2.2.1⟩

end Blogicum
